import Mathlib

/-!
# Device probe (`main.go`)

A shallow embedding of the character-device smoke test: one `syscall.Open`,
one `syscall.Write`, one `syscall.Read`, each followed by `on_err`, with three
lines printed on standard output.

The operating system is the environment of the program.  It is modelled as a
`Device`: a state type together with the three system calls the program uses,
each a function of the current device state.  The process itself carries the
device state, the chunks printed on standard output (one chunk per `fmt` call)
and the sequence of system calls issued through package `syscall`.
-/

set_option maxRecDepth 20000

namespace CharDevice

/-! ## Bytes and strings -/

/-- A Go `byte`. -/
abbrev Byte := UInt8

/-- The bytes of an ASCII string literal of the source (a Go string is a byte
sequence). -/
def str (s : String) : List Byte := s.toList.map fun c => c.toNat.toUInt8

/-- Constant `DEVICE = "/dev/chardev"`. -/
def DEVICE : List Byte := str "/dev/chardev"

/-- Constant `BUFFER_LENGTH = 256`. -/
def BUFFER_LENGTH : Nat := 256

/-- Constant `syscall.O_RDWR` on Linux. -/
def O_RDWR : Int := 2

/-- Go `make([]byte, n)`: a slice of `n` zero bytes. -/
def make (n : Nat) : List Byte := List.replicate n 0

/-- Go `copy(dst, src)`: the first `min (len dst) (len src)` positions of `dst`
are replaced by those of `src`; the length of `dst` is unchanged. -/
def copy (dst src : List Byte) : List Byte :=
  src.take dst.length ++ dst.drop (src.take dst.length).length

/-! ## Errors, system calls, devices -/

/-- A non-nil Go `error` returned by package `syscall`: the error number and
the text its `Error()` method returns. -/
structure GoError where
  errno : Nat
  Error : List Byte
deriving DecidableEq, Repr

/-- The system calls a program can issue on a device through package
`syscall`. -/
inductive Syscall where
  | Open (path : List Byte) (mode : Int) (perm : Nat)
  | Write (fd : Int) (p : List Byte)
  | Read (fd : Int) (len : Nat)
  | Close (fd : Int)
deriving DecidableEq, Repr

/-- The environment.  Each call maps the device state to a new state and the
values `syscall` hands back: `(fd, err)` for `Open`, `(n, err)` for `Write`,
and for `Read` the bytes the kernel stored from the start of the destination
together with `(n, err)`.  `Read` is given the length of the destination, not
its contents. -/
structure Device (σ : Type) where
  Open : σ → List Byte → Int → Nat → σ × Int × Option GoError
  Write : σ → Int → List Byte → σ × Int × Option GoError
  Read : σ → Int → Nat → σ × List Byte × Int × Option GoError

/-- The running process: device state, chunks written to standard output (one
per `fmt` call, in order) and system calls issued so far. -/
structure Proc (σ : Type) where
  world : σ
  stdout : List (List Byte)
  calls : List Syscall

/-- The byte stream on standard output. -/
def Proc.output {σ : Type} (p : Proc σ) : List Byte := p.stdout.flatten

/-! ## Package `fmt` -/

/-- The byte of a decimal digit character. -/
def digitByte (c : Char) : Byte := c.toNat.toUInt8

/-- The verb `%d` applied to an `int`: decimal digits, with a leading `-` for a
negative value. -/
def formatInt : Int → List Byte
  | Int.ofNat m => (Nat.toDigits 10 m).map digitByte
  | Int.negSucc m => 0x2D :: (Nat.toDigits 10 (m + 1)).map digitByte

/-- The number denoted by a sequence of decimal digit bytes, most significant
first. -/
def decimalValue (ds : List Byte) : Nat :=
  ds.foldl (fun acc b => 10 * acc + (b.toNat - 48)) 0

/-- An operand of `Printf`. -/
inductive Arg where
  | int (i : Int)
  | string (s : List Byte)

/-- The formatting of `fmt.Printf` for the verbs the program uses: `%d` with an
`int` operand and `%s` with a `string` operand are replaced by the operand; all
other bytes of the format are copied. -/
def Sprintf : List Byte → List Arg → List Byte
  | [], _ => []
  | b :: rest, args =>
    if b = 0x25 then
      match rest, args with
      | c :: rest1, Arg.int i :: args1 =>
        if c = 0x64 then formatInt i ++ Sprintf rest1 args1 else b :: c :: Sprintf rest1 args
      | c :: rest1, Arg.string s :: args1 =>
        if c = 0x73 then s ++ Sprintf rest1 args1 else b :: c :: Sprintf rest1 args
      | c :: rest1, [] => b :: c :: Sprintf rest1 args
      | [], _ => [b]
    else b :: Sprintf rest args

/-- Go `fmt.Println(s)`: one write of `s` followed by a newline. -/
def Println {σ : Type} (s : List Byte) (p : Proc σ) : Proc σ :=
  { p with stdout := p.stdout ++ [s ++ [0x0A]] }

/-- Go `fmt.Printf(format, args...)`: one write of the formatted text. -/
def Printf {σ : Type} (format : List Byte) (args : List Arg) (p : Proc σ) : Proc σ :=
  { p with stdout := p.stdout ++ [Sprintf format args] }

/-! ## Package `syscall` -/

/-- Go `syscall.Open(path, mode, perm)`: the call is recorded and the device answers. -/
def Open {σ : Type} (D : Device σ) (path : List Byte) (mode : Int) (perm : Nat)
    (p : Proc σ) : Int × Option GoError × Proc σ :=
  let r := D.Open p.world path mode perm
  (r.2.1, r.2.2, { p with world := r.1, calls := p.calls ++ [Syscall.Open path mode perm] })

/-- Go `syscall.Write(fd, b)`: the call is recorded and the device answers. -/
def Write {σ : Type} (D : Device σ) (fd : Int) (b : List Byte)
    (p : Proc σ) : Int × Option GoError × Proc σ :=
  let r := D.Write p.world fd b
  (r.2.1, r.2.2, { p with world := r.1, calls := p.calls ++ [Syscall.Write fd b] })

/-- Go `syscall.Read(fd, b)`: the kernel stores bytes from the start of `b`, never
past its end; the slice after the call is returned with `(n, err)`. -/
def Read {σ : Type} (D : Device σ) (fd : Int) (b : List Byte)
    (p : Proc σ) : List Byte × Int × Option GoError × Proc σ :=
  let r := D.Read p.world fd b.length
  (copy b r.2.1, r.2.2.1, r.2.2.2,
    { p with world := r.1, calls := p.calls ++ [Syscall.Read fd b.length] })

/-! ## The program -/

/-- Function `on_err(err)`: for a non-nil error, print `err.Error()` and panic with the
error; otherwise continue.  A panic is the `Except.error` carrying the error
and the process at that point. -/
def on_err {σ : Type} (err : Option GoError) (p : Proc σ) :
    Except (GoError × Proc σ) (Proc σ) :=
  match err with
  | some e => Except.error (e, Println e.Error p)
  | none => Except.ok p

/-- The body of `main`, with the literal copied into the buffer as a
parameter.  `Except.ok` is a normal return, `Except.error` a panic. -/
def probe {σ : Type} (literal : List Byte) (D : Device σ) (w : σ) :
    Except (GoError × Proc σ) (Proc σ) := do
  let write_buffer := make BUFFER_LENGTH
  let p := Println (str "Starting device test code example...") ⟨w, [], []⟩
  let (fd, err, p) := Open D DEVICE O_RDWR 0o777 p
  let p ← on_err err p
  let write_buffer := copy write_buffer literal
  let (numbytes, err, p) := Write D fd (str "test") p
  let p ← on_err err p
  let p := Printf (str "Sent %d bytes...\n") [Arg.int numbytes] p
  let (write_buffer, _, err, p) := Read D fd write_buffer p
  let p ← on_err err p
  let p := Printf (str "Incoming message: %s\n") [Arg.string write_buffer] p
  return p

/-- The program `main`: `probe` with the literal of the source. -/
def main {σ : Type} (D : Device σ) (w : σ) : Except (GoError × Proc σ) (Proc σ) :=
  probe (str "some data") D w

/-- A loopback fixture: the state is the bytes held by the device; `Open`
yields descriptor 3, `Write` keeps the bytes it is given and reports their
number, `Read` hands back the bytes held, at most `len` of them. -/
def loopback : Device (List Byte) where
  Open := fun s _ _ _ => (s, 3, none)
  Write := fun _ _ b => (b, (b.length : Int), none)
  Read := fun s _ len => (s, s.take len, ((s.take len).length : Int), none)

/-- A stateless device that answers each call with a fixed result. -/
def scripted (o w : Int × Option GoError) (r : List Byte × Int × Option GoError) :
    Device Unit where
  Open := fun s _ _ _ => (s, o)
  Write := fun s _ _ => (s, w)
  Read := fun s _ _ => (s, r)

/-- The error `ENOENT`. -/
def ENOENT : GoError := ⟨2, str "no such file or directory"⟩

/-- The error `EIO`. -/
def EIO : GoError := ⟨5, str "input/output error"⟩

/-- A device "echoes" when a `Read` that follows a successful `Write` on the
same descriptor hands back verbatim the bytes that were written (as many as the
destination holds) and reports their number. -/
def Echoes {σ : Type} (D : Device σ) : Prop :=
  ∀ (s : σ) (fd : Int) (b : List Byte) (len : Nat), (D.Write s fd b).2.2 = none →
    (D.Read (D.Write s fd b).1 fd len).2 = (b.take len, ((b.take len).length : Int), none)

/-! ## Observations on a run -/

/-- The process at the end of a run, whether it returned or panicked. -/
def final {σ : Type} (r : Except (GoError × Proc σ) (Proc σ)) : Proc σ :=
  match r with
  | Except.ok p => p
  | Except.error (_, p) => p

/-- The answer of the device to the `Open` of a run started in state `w`. -/
def opened {σ : Type} (D : Device σ) (w : σ) : σ × Int × Option GoError :=
  D.Open w DEVICE O_RDWR 0o777

/-- The answer of the device to the `Write` that follows a successful `Open`. -/
def written {σ : Type} (D : Device σ) (w : σ) : σ × Int × Option GoError :=
  D.Write (opened D w).1 (opened D w).2.1 (str "test")

/-- The answer of the device to the `Read` that follows a successful `Write`. -/
def readBack {σ : Type} (D : Device σ) (w : σ) : σ × List Byte × Int × Option GoError :=
  D.Read (written D w).1 (opened D w).2.1 BUFFER_LENGTH

/-- The buffer just before the `Read`: `literal` copied over 256 zero bytes. -/
def prefilled (literal : List Byte) : List Byte := copy (make BUFFER_LENGTH) literal

/-- The buffer just after the `Read`. -/
def received {σ : Type} (literal : List Byte) (D : Device σ) (w : σ) : List Byte :=
  copy (prefilled literal) (readBack D w).2.1

/-! ## Lemmas -/

theorem Sprintf_sent (n : Int) :
    Sprintf (str "Sent %d bytes...\n") [Arg.int n]
      = str "Sent " ++ formatInt n ++ str " bytes...\n" := rfl

theorem Sprintf_incoming (s : List Byte) :
    Sprintf (str "Incoming message: %s\n") [Arg.string s]
      = str "Incoming message: " ++ s ++ [0x0A] := rfl

theorem copy_length (dst src : List Byte) : (copy dst src).length = dst.length := by
  simp [copy]

theorem prefilled_length (literal : List Byte) : (prefilled literal).length = BUFFER_LENGTH := by
  simp [prefilled, copy_length, make]

theorem probe_eq {σ : Type} (literal : List Byte) (D : Device σ) (w : σ) :
    probe literal D w =
      match (opened D w).2.2 with
      | some e => Except.error (e,
          ⟨(opened D w).1,
           [str "Starting device test code example...\n", e.Error ++ [0x0A]],
           [Syscall.Open DEVICE O_RDWR 0o777]⟩)
      | none =>
        match (written D w).2.2 with
        | some e => Except.error (e,
            ⟨(written D w).1,
             [str "Starting device test code example...\n", e.Error ++ [0x0A]],
             [Syscall.Open DEVICE O_RDWR 0o777, Syscall.Write (opened D w).2.1 (str "test")]⟩)
        | none =>
          match (readBack D w).2.2.2 with
          | some e => Except.error (e,
              ⟨(readBack D w).1,
               [str "Starting device test code example...\n",
                str "Sent " ++ formatInt (written D w).2.1 ++ str " bytes...\n",
                e.Error ++ [0x0A]],
               [Syscall.Open DEVICE O_RDWR 0o777, Syscall.Write (opened D w).2.1 (str "test"),
                Syscall.Read (opened D w).2.1 BUFFER_LENGTH]⟩)
          | none => Except.ok
              ⟨(readBack D w).1,
               [str "Starting device test code example...\n",
                str "Sent " ++ formatInt (written D w).2.1 ++ str " bytes...\n",
                str "Incoming message: " ++ received literal D w ++ [0x0A]],
               [Syscall.Open DEVICE O_RDWR 0o777, Syscall.Write (opened D w).2.1 (str "test"),
                Syscall.Read (opened D w).2.1 BUFFER_LENGTH]⟩ := by
  have hlen : (copy (make BUFFER_LENGTH) literal).length = BUFFER_LENGTH :=
    prefilled_length literal
  unfold probe
  cases h1 : (opened D w).2.2 with
  | some e =>
    have h1a : (D.Open w DEVICE O_RDWR 0o777).2.2 = some e := h1
    simp [Open, on_err, Println, h1a, opened, bind, Except.bind]
    rfl
  | none =>
    have h1a : (D.Open w DEVICE O_RDWR 0o777).2.2 = none := h1
    cases h2 : (written D w).2.2 with
    | some e =>
      have h2a : (D.Write (D.Open w DEVICE O_RDWR 0o777).1 (D.Open w DEVICE O_RDWR 0o777).2.1
        (str "test")).2.2 = some e := h2
      simp [Open, Write, on_err, Println, h1a, h2a, opened, written, bind, Except.bind]
      rfl
    | none =>
      have h2a : (D.Write (D.Open w DEVICE O_RDWR 0o777).1 (D.Open w DEVICE O_RDWR 0o777).2.1
        (str "test")).2.2 = none := h2
      cases h3 : (readBack D w).2.2.2 with
      | some e =>
        have h3a : (D.Read (D.Write (D.Open w DEVICE O_RDWR 0o777).1
          (D.Open w DEVICE O_RDWR 0o777).2.1 (str "test")).1
          (D.Open w DEVICE O_RDWR 0o777).2.1 BUFFER_LENGTH).2.2.2 = some e := h3
        simp [Open, Write, Read, on_err, Println, Printf, h1a, h2a, h3a, hlen, opened, written,
          readBack, bind, Except.bind, Sprintf_sent]
        rfl
      | none =>
        have h3a : (D.Read (D.Write (D.Open w DEVICE O_RDWR 0o777).1
          (D.Open w DEVICE O_RDWR 0o777).2.1 (str "test")).1
          (D.Open w DEVICE O_RDWR 0o777).2.1 BUFFER_LENGTH).2.2.2 = none := h3
        simp [Open, Write, Read, on_err, Println, Printf, h1a, h2a, h3a, hlen, opened, written,
          readBack, received, prefilled, bind, Except.bind, Sprintf_sent, Sprintf_incoming, pure,
          Except.pure]
        rfl

theorem digitByte_value (k : Nat) (hk : k < 10) :
    (digitByte (Nat.digitChar k)).toNat - 48 = k := by
  interval_cases k <;> rfl

theorem toDigitsCore_value (fuel : Nat) :
    ∀ (n : Nat) (ds : List Char), n < fuel →
      ((Nat.toDigitsCore 10 fuel n ds).map digitByte).foldl
          (fun acc b => 10 * acc + (b.toNat - 48)) 0
        = (ds.map digitByte).foldl (fun acc b => 10 * acc + (b.toNat - 48)) n := by
  induction fuel with
  | zero => intro n ds h; omega
  | succ fuel ih =>
    intro n ds h
    have hd := digitByte_value (n % 10) (Nat.mod_lt n (by decide))
    simp only [Nat.toDigitsCore]
    by_cases h0 : n / 10 = 0
    · simp only [h0, if_true, List.map_cons, List.foldl_cons, hd]
      have : 10 * 0 + n % 10 = n := by omega
      rw [this]
    · simp only [h0, if_false]
      rw [ih (n / 10) _ (by omega)]
      simp only [List.map_cons, List.foldl_cons, hd]
      have : 10 * (n / 10) + n % 10 = n := by omega
      rw [this]

theorem decimalValue_toDigits (m : Nat) :
    decimalValue ((Nat.toDigits 10 m).map digitByte) = m := by
  simp only [decimalValue, Nat.toDigits]
  rw [toDigitsCore_value (m + 1) m [] (by omega)]
  rfl

theorem decimalValue_formatInt (n : Int) (hn : 0 ≤ n) : decimalValue (formatInt n) = n.toNat := by
  cases n with
  | ofNat m => exact decimalValue_toDigits m
  | negSucc m => exact absurd hn (by simp)

theorem main_eq {σ : Type} (D : Device σ) (w : σ) : main D w = probe (str "some data") D w := rfl

/-! ## Claims -/

/-- C1: when the open of `/dev/chardev` fails with error `e`, `main` panics with
`e`; standard output holds the startup banner and then the line `e.Error()`;
the only system call issued is the open, so no write and no read is issued. -/
theorem main_open_failure {σ : Type} (D : Device σ) (w : σ) (e : GoError)
    (hopen : (opened D w).2.2 = some e) :
    main D w = Except.error (e,
        ⟨(opened D w).1,
         [str "Starting device test code example...\n", e.Error ++ str "\n"],
         [Syscall.Open (str "/dev/chardev") O_RDWR 0o777]⟩) ∧
      (final (main D w)).output
        = str "Starting device test code example...\n" ++ (e.Error ++ str "\n") ∧
      (∀ fd b, Syscall.Write fd b ∉ (final (main D w)).calls) ∧
      (∀ fd len, Syscall.Read fd len ∉ (final (main D w)).calls) := by
  have h : main D w = Except.error (e,
        ⟨(opened D w).1,
         [str "Starting device test code example...\n", e.Error ++ str "\n"],
         [Syscall.Open (str "/dev/chardev") O_RDWR 0o777]⟩) := by
    rw [main_eq, probe_eq, hopen]
    rfl
  refine ⟨h, ?_, ?_, ?_⟩
  · rw [h]; simp [final, Proc.output]
  · intro fd b; rw [h]; simp [final]
  · intro fd len; rw [h]; simp [final]

/-- Witness of C1: a device whose node is missing (`ENOENT`). -/
theorem main_open_failure_witness :
    (opened (scripted (-1, some ENOENT) (-1, some EIO) ([], -1, some EIO)) ()).2.2 = some ENOENT ∧
      (final (main (scripted (-1, some ENOENT) (-1, some EIO) ([], -1, some EIO)) ())).output
        = str "Starting device test code example...\nno such file or directory\n" :=
  ⟨rfl, (main_open_failure (scripted (-1, some ENOENT) (-1, some EIO) ([], -1, some EIO)) ()
    ENOENT rfl).2.1⟩

/-- C2: when the open succeeds, the write calls of the run are exactly the one
call `Write fd [0x74, 0x65, 0x73, 0x74]` ("test") on the descriptor `fd` the
open returned; the payload is not taken from the buffer: the system calls of
the run are the same whatever literal the buffer is pre-filled with, and the
payload is neither the buffer nor the literal "some data". -/
theorem main_write_payload {σ : Type} (D : Device σ) (w : σ)
    (hopen : (opened D w).2.2 = none) :
    (∀ fd b, Syscall.Write fd b ∈ (final (main D w)).calls ↔
        (fd = (opened D w).2.1 ∧ b = [0x74, 0x65, 0x73, 0x74])) ∧
      (final (main D w)).calls[1]? = some (Syscall.Write (opened D w).2.1 (str "test")) ∧
      (∀ literal, (final (probe literal D w)).calls = (final (main D w)).calls) ∧
      (∀ literal, str "test" ≠ prefilled literal) ∧
      str "test" ≠ str "some data" := by
  have hcalls : ∀ literal, (final (probe literal D w)).calls =
      [Syscall.Open DEVICE O_RDWR 0o777, Syscall.Write (opened D w).2.1 (str "test")] ∨
      (final (probe literal D w)).calls =
      [Syscall.Open DEVICE O_RDWR 0o777, Syscall.Write (opened D w).2.1 (str "test"),
        Syscall.Read (opened D w).2.1 BUFFER_LENGTH] := by
    intro literal
    rw [probe_eq, hopen]
    cases h2 : (written D w).2.2 with
    | some e => left; rfl
    | none =>
      right
      cases h3 : (readBack D w).2.2.2 with
      | some e => rfl
      | none => rfl
  have hsame : ∀ literal, (final (probe literal D w)).calls = (final (main D w)).calls := by
    intro literal
    rw [main_eq, probe_eq, probe_eq]
    cases (opened D w).2.2 with
    | some e => simp only [final]
    | none =>
      cases (written D w).2.2 with
      | some e => simp only [final]
      | none =>
        cases (readBack D w).2.2.2 with
        | some e => simp only [final]
        | none => simp only [final]
  have htest : str "test" = [0x74, 0x65, 0x73, 0x74] := by decide
  refine ⟨?_, ?_, hsame, ?_, by decide⟩
  · intro fd b
    rw [← htest]
    rcases hcalls (str "some data") with h | h <;> rw [main_eq, h] <;> simp
  · rcases hcalls (str "some data") with h | h <;> rw [main_eq, h] <;> rfl
  · intro literal h
    have := congrArg List.length h
    rw [prefilled_length] at this
    revert this
    decide

/-- Witness of C2: the loopback fixture. -/
theorem main_write_payload_witness :
    (opened loopback []).2.2 = none ∧
      (final (main loopback [])).calls[1]? = some (Syscall.Write 3 [0x74, 0x65, 0x73, 0x74]) :=
  ⟨rfl, (main_write_payload loopback [] rfl).2.1⟩

/-- C3: when the open succeeds and the write returns the count `n` without
error, the second chunk printed is exactly `Sent n bytes...` and a newline,
with `n` in decimal (for a count `n ≥ 0` the digits printed denote `n`): the
value reported is the count returned by the write, whatever it is. -/
theorem main_reports_write_count {σ : Type} (D : Device σ) (w : σ) (n : Int)
    (hopen : (opened D w).2.2 = none) (hwrite : (written D w).2 = (n, none)) :
    (final (main D w)).stdout[1]? = some (str "Sent " ++ formatInt n ++ str " bytes...\n") ∧
      (0 ≤ n → decimalValue (formatInt n) = n.toNat) := by
  have h2 : (written D w).2.2 = none := by rw [hwrite]
  have hn : (written D w).2.1 = n := by rw [hwrite]
  refine ⟨?_, decimalValue_formatInt n⟩
  rw [main_eq, probe_eq, hopen, h2, hn]
  cases (readBack D w).2.2.2 with
  | some e => rfl
  | none => rfl

/-- Witness of C3: a short write of 3 bytes is reported as 3, not 4. -/
theorem main_reports_write_count_witness :
    (written (scripted (3, none) (3, none) ([], 0, none)) ()).2 = (3, none) ∧
      (final (main (scripted (3, none) (3, none) ([], 0, none)) ())).stdout[1]?
        = some (str "Sent 3 bytes...\n") :=
  ⟨rfl, (main_reports_write_count (scripted (3, none) (3, none) ([], 0, none)) () 3 rfl rfl).1⟩

/-- C4: when open, write and read all succeed, whatever count `n` the read
returns, the third chunk printed is `Incoming message: `, then the whole buffer
as it is after the read, then a newline; that text has exactly
`BUFFER_LENGTH = 256` bytes and is not cut at `n`. -/
theorem main_prints_whole_buffer {σ : Type} (D : Device σ) (w : σ) (data : List Byte) (n : Int)
    (hopen : (opened D w).2.2 = none) (hwrite : (written D w).2.2 = none)
    (hread : (readBack D w).2 = (data, n, none)) :
    (final (main D w)).stdout[2]?
        = some (str "Incoming message: " ++ copy (prefilled (str "some data")) data ++ str "\n") ∧
      (copy (prefilled (str "some data")) data).length = BUFFER_LENGTH ∧
      BUFFER_LENGTH = 256 := by
  have h3 : (readBack D w).2.2.2 = none := by rw [hread]
  have hd : (readBack D w).2.1 = data := by rw [hread]
  refine ⟨?_, ?_, rfl⟩
  · rw [main_eq, probe_eq, hopen, hwrite, h3]
    simp only [final, received, hd]
    rfl
  · rw [copy_length, prefilled_length]

/-- Witness of C4: a read that returns the count 2 still prints 256 bytes. -/
theorem main_prints_whole_buffer_witness :
    (readBack (scripted (3, none) (4, none) ([0x6F, 0x6B], 2, none)) ()).2
        = ([0x6F, 0x6B], 2, none) ∧
      (copy (prefilled (str "some data")) [0x6F, 0x6B]).length = BUFFER_LENGTH :=
  ⟨rfl, (main_prints_whole_buffer (scripted (3, none) (4, none) ([0x6F, 0x6B], 2, none)) ()
    [0x6F, 0x6B] 2 rfl rfl rfl).2.1⟩

/-- C5: after a successful open, a failing write makes `main` print the error
text and panic with only the banner printed before it (no `Sent` line) and only
the open and the write issued (no read, no second write); after a successful
write, a failing read makes `main` print the error text and panic with the
banner and the `Sent` line printed before it (no `Incoming message` line) and
the open, the write and the read issued once each. -/
theorem main_io_failure {σ : Type} (D : Device σ) (w : σ) (e : GoError)
    (hopen : (opened D w).2.2 = none) :
    ((written D w).2.2 = some e →
        main D w = Except.error (e,
          ⟨(written D w).1,
           [str "Starting device test code example...\n", e.Error ++ str "\n"],
           [Syscall.Open (str "/dev/chardev") O_RDWR 0o777,
            Syscall.Write (opened D w).2.1 (str "test")]⟩)) ∧
      ((written D w).2.2 = none → (readBack D w).2.2.2 = some e →
        main D w = Except.error (e,
          ⟨(readBack D w).1,
           [str "Starting device test code example...\n",
            str "Sent " ++ formatInt (written D w).2.1 ++ str " bytes...\n",
            e.Error ++ str "\n"],
           [Syscall.Open (str "/dev/chardev") O_RDWR 0o777,
            Syscall.Write (opened D w).2.1 (str "test"),
            Syscall.Read (opened D w).2.1 256]⟩)) := by
  constructor
  · intro h2
    rw [main_eq, probe_eq, hopen, h2]
    rfl
  · intro h2 h3
    rw [main_eq, probe_eq, hopen, h2, h3]
    rfl

/-- Witness of C5: one device whose write fails and one whose read fails, both
with `EIO`. -/
theorem main_io_failure_witness :
    (final (main (scripted (3, none) (-1, some EIO) ([], -1, some EIO)) ())).stdout
        = [str "Starting device test code example...\n", str "input/output error\n"] ∧
      (final (main (scripted (3, none) (4, none) ([], -1, some EIO)) ())).stdout
        = [str "Starting device test code example...\n", str "Sent 4 bytes...\n",
           str "input/output error\n"] :=
  ⟨congrArg (fun r => (final r).stdout)
      ((main_io_failure (scripted (3, none) (-1, some EIO) ([], -1, some EIO)) () EIO rfl).1 rfl),
   congrArg (fun r => (final r).stdout)
      ((main_io_failure (scripted (3, none) (4, none) ([], -1, some EIO)) () EIO rfl).2 rfl rfl)⟩

theorem loopback_echoes : Echoes loopback := by
  intro s fd b len _
  rfl

theorem received_test (literal : List Byte) :
    copy (prefilled literal) (str "test") = str "test" ++ (prefilled literal).drop 4 := by
  have h : (List.take (prefilled literal).length (str "test")) = str "test" := by
    rw [prefilled_length]
    decide
  unfold copy
  rw [h]
  rfl

/-- C6: on a device that echoes, when the open and the write succeed, `main`
returns normally, has written "test" on the descriptor the open returned, the
read returns a count of at least 4, and the text printed after
`Incoming message: ` begins with "test". -/
theorem main_echo {σ : Type} (D : Device σ) (w : σ) (hecho : Echoes D)
    (hopen : (opened D w).2.2 = none) (hwrite : (written D w).2.2 = none) :
    main D w = Except.ok (final (main D w)) ∧
      Syscall.Write (opened D w).2.1 (str "test") ∈ (final (main D w)).calls ∧
      (readBack D w).2.2.2 = none ∧
      (4 : Int) ≤ (readBack D w).2.2.1 ∧
      ∃ rest, (final (main D w)).stdout[2]?
        = some (str "Incoming message: " ++ (str "test" ++ rest) ++ str "\n") := by
  have hr : (readBack D w).2 = (str "test", (4 : Int), none) :=
    hecho (opened D w).1 (opened D w).2.1 (str "test") BUFFER_LENGTH hwrite
  have h3 : (readBack D w).2.2.2 = none := by rw [hr]
  have hd : (readBack D w).2.1 = str "test" := by rw [hr]
  have hn : (readBack D w).2.2.1 = 4 := by rw [hr]
  have hm : main D w = Except.ok
      ⟨(readBack D w).1,
       [str "Starting device test code example...\n",
        str "Sent " ++ formatInt (written D w).2.1 ++ str " bytes...\n",
        str "Incoming message: " ++ received (str "some data") D w ++ [0x0A]],
       [Syscall.Open DEVICE O_RDWR 0o777, Syscall.Write (opened D w).2.1 (str "test"),
        Syscall.Read (opened D w).2.1 BUFFER_LENGTH]⟩ := by
    rw [main_eq, probe_eq, hopen, hwrite, h3]
  refine ⟨?_, ?_, h3, ?_, (prefilled (str "some data")).drop 4, ?_⟩
  · rw [hm]; rfl
  · rw [hm]; simp [final]
  · rw [hn]
  · rw [hm]
    simp only [final, received, hd, received_test]
    rfl

/-- Witness of C6: the loopback fixture started empty. -/
theorem main_echo_witness :
    Echoes loopback ∧ (4 : Int) ≤ (readBack loopback []).2.2.1 ∧
      main loopback [] = Except.ok (final (main loopback [])) :=
  ⟨loopback_echoes, (main_echo loopback [] loopback_echoes rfl rfl).2.2.2.1,
    (main_echo loopback [] loopback_echoes rfl rfl).1⟩

/-- C7: when open, write and read all succeed, `main` returns normally and
standard output is exactly three chunks in this order: the banner, the `Sent`
line with the count the write returned, the `Incoming message` line with the
buffer text; each ends with a newline and nothing else is printed. -/
theorem main_success_output {σ : Type} (D : Device σ) (w : σ)
    (hopen : (opened D w).2.2 = none) (hwrite : (written D w).2.2 = none)
    (hread : (readBack D w).2.2.2 = none) :
    main D w = Except.ok (final (main D w)) ∧
      (final (main D w)).stdout =
        [str "Starting device test code example..." ++ str "\n",
         str "Sent " ++ formatInt (written D w).2.1 ++ str " bytes..." ++ str "\n",
         str "Incoming message: " ++ received (str "some data") D w ++ str "\n"] ∧
      (final (main D w)).output =
        str "Starting device test code example..." ++ str "\n" ++
        (str "Sent " ++ formatInt (written D w).2.1 ++ str " bytes..." ++ str "\n") ++
        (str "Incoming message: " ++ received (str "some data") D w ++ str "\n") ∧
      (∀ line ∈ (final (main D w)).stdout, line.getLast? = some 0x0A) := by
  have hm : main D w = Except.ok
      ⟨(readBack D w).1,
       [str "Starting device test code example...\n",
        str "Sent " ++ formatInt (written D w).2.1 ++ str " bytes...\n",
        str "Incoming message: " ++ received (str "some data") D w ++ [0x0A]],
       [Syscall.Open DEVICE O_RDWR 0o777, Syscall.Write (opened D w).2.1 (str "test"),
        Syscall.Read (opened D w).2.1 BUFFER_LENGTH]⟩ := by
    rw [main_eq, probe_eq, hopen, hwrite, hread]
  have e1 : str "Starting device test code example...\n"
      = str "Starting device test code example..." ++ str "\n" := by decide
  have e2 : str "Sent " ++ formatInt (written D w).2.1 ++ str " bytes...\n"
      = str "Sent " ++ formatInt (written D w).2.1 ++ str " bytes..." ++ str "\n" := by
    rw [List.append_assoc _ (str " bytes...") (str "\n")]
    rfl
  have e3 : ([0x0A] : List Byte) = str "\n" := by decide
  have hs : (final (main D w)).stdout =
        [str "Starting device test code example..." ++ str "\n",
         str "Sent " ++ formatInt (written D w).2.1 ++ str " bytes..." ++ str "\n",
         str "Incoming message: " ++ received (str "some data") D w ++ str "\n"] := by
    rw [hm, e1, e2, e3]
    rfl
  refine ⟨?_, hs, ?_, ?_⟩
  · rw [hm]; rfl
  · rw [Proc.output, hs]
    simp only [List.flatten, List.append_nil, List.append_assoc]
  · intro line hl
    rw [hs] at hl
    have e4 : str "\n" = [0x0A] := by decide
    simp only [List.mem_cons, List.mem_singleton, List.not_mem_nil, or_false] at hl
    rcases hl with h | h | h <;> rw [h, e4] <;> simp

/-- Witness of C7: the loopback fixture prints its three lines. -/
theorem main_success_output_witness :
    (readBack loopback []).2.2.2 = none ∧
      (final (main loopback [])).stdout =
        [str "Starting device test code example...\n",
         str "Sent 4 bytes...\n",
         str "Incoming message: test data" ++ List.replicate 247 0 ++ str "\n"] :=
  ⟨rfl, (main_success_output loopback [] rfl rfl rfl).2.1⟩

theorem copy_eq_of_drop_eq (b1 b2 data : List Byte) (hlen : b1.length = b2.length)
    (h : b1.drop data.length = b2.drop data.length) : copy b1 data = copy b2 data := by
  unfold copy
  rw [hlen]
  congr 1
  by_cases hk : data.length ≤ b2.length
  · rw [List.take_of_length_le hk]
    exact h
  · have h1 : b1.length ≤ (List.take b2.length data).length := by
      rw [List.length_take]; omega
    have h2 : b2.length ≤ (List.take b2.length data).length := by
      rw [List.length_take]; omega
    rw [List.drop_of_length_le h1, List.drop_of_length_le h2]

theorem copy_of_length_le (b data : List Byte) (h : data.length ≤ b.length) :
    copy b data = data ++ b.drop data.length := by
  unfold copy
  rw [List.take_of_length_le h]

theorem prefilled_some_data :
    prefilled (str "some data") = str "some data" ++ List.replicate 247 0 := by
  decide

/-- C8, as stated, fails: on the loopback fixture the run succeeds with either
pre-fill, yet the text printed after `Incoming message: ` is "test data" and
247 zero bytes with the pre-fill "some data", and "test" and 252 zero bytes
with an empty pre-fill. -/
theorem prefill_printed_counterexample :
    main loopback [] = Except.ok (final (main loopback [])) ∧
      probe [] loopback [] = Except.ok (final (probe [] loopback [])) ∧
      (final (probe (str "some data") loopback [])).stdout[2]?
        = some (str "Incoming message: " ++ (str "test data" ++ List.replicate 247 0) ++ str "\n") ∧
      (final (probe [] loopback [])).stdout[2]?
        = some (str "Incoming message: " ++ (str "test" ++ List.replicate 252 0) ++ str "\n") ∧
      (final (probe (str "some data") loopback [])).stdout[2]?
        ≠ (final (probe [] loopback [])).stdout[2]? := by
  refine ⟨rfl, rfl, rfl, rfl, ?_⟩
  decide

/-- C8, amended: in a successful run the read replaces only the positions it
stores, so the text printed after `Incoming message: ` is the same for two
pre-fills that agree from position `k` on, `k` being the number of bytes the
read stores; it is the same for all pre-fills when the read stores
`BUFFER_LENGTH` bytes or more. -/
theorem prefill_frame {σ : Type} (D : Device σ) (w : σ) (lit1 lit2 : List Byte)
    (hopen : (opened D w).2.2 = none) (hwrite : (written D w).2.2 = none)
    (hread : (readBack D w).2.2.2 = none)
    (hagree : (prefilled lit1).drop (readBack D w).2.1.length
      = (prefilled lit2).drop (readBack D w).2.1.length) :
    (final (probe lit1 D w)).stdout[2]?
        = some (str "Incoming message: " ++ received lit1 D w ++ str "\n") ∧
      (final (probe lit2 D w)).stdout[2]?
        = some (str "Incoming message: " ++ received lit2 D w ++ str "\n") ∧
      received lit1 D w = received lit2 D w ∧
      (BUFFER_LENGTH ≤ (readBack D w).2.1.length →
        ∀ a b, received a D w = received b D w) := by
  have hp : ∀ lit, (final (probe lit D w)).stdout[2]?
      = some (str "Incoming message: " ++ received lit D w ++ str "\n") := by
    intro lit
    rw [probe_eq, hopen, hwrite, hread]
    rfl
  refine ⟨hp lit1, hp lit2, ?_, ?_⟩
  · exact copy_eq_of_drop_eq _ _ _ (by rw [prefilled_length, prefilled_length]) hagree
  · intro hk a b
    apply copy_eq_of_drop_eq _ _ _ (by rw [prefilled_length, prefilled_length])
    rw [List.drop_of_length_le (by rw [prefilled_length]; exact hk),
      List.drop_of_length_le (by rw [prefilled_length]; exact hk)]

/-- Witness of C8 amended: a read that stores 9 bytes hides the difference
between the pre-fills "some data" and "zzzzzzzzz". -/
theorem prefill_frame_witness :
    (prefilled (str "some data")).drop 9 = (prefilled (str "zzzzzzzzz")).drop 9 ∧
      received (str "some data") (scripted (3, none) (4, none) (str "test(4) !", 9, none)) ()
        = received (str "zzzzzzzzz") (scripted (3, none) (4, none) (str "test(4) !", 9, none)) () :=
  ⟨by decide,
    (prefill_frame (scripted (3, none) (4, none) (str "test(4) !", 9, none)) ()
      (str "some data") (str "zzzzzzzzz") rfl rfl rfl (by decide)).2.2.1⟩

/-- C9: the system calls of every run of `main` form a prefix of: one open of
"/dev/chardev" with `O_RDWR` and mode 0777, one write on the descriptor the
open returned, one read on the same descriptor with a 256-byte destination; a
run that returns normally has issued exactly these three, in this order; no run
issues a close. -/
theorem main_call_sequence {σ : Type} (D : Device σ) (w : σ) :
    (final (main D w)).calls <+:
        [Syscall.Open (str "/dev/chardev") 2 0o777,
         Syscall.Write (opened D w).2.1 (str "test"),
         Syscall.Read (opened D w).2.1 256] ∧
      (final (main D w)).calls ≠ [] ∧
      (main D w = Except.ok (final (main D w)) →
        (final (main D w)).calls =
          [Syscall.Open (str "/dev/chardev") 2 0o777,
           Syscall.Write (opened D w).2.1 (str "test"),
           Syscall.Read (opened D w).2.1 256]) ∧
      (∀ fd, Syscall.Close fd ∉ (final (main D w)).calls) := by
  rw [main_eq, probe_eq]
  cases (opened D w).2.2 with
  | some e =>
    simp only [final]
    refine ⟨⟨[_, _], rfl⟩, by simp, ?_, by simp⟩
    intro h; cases h
  | none =>
    cases (written D w).2.2 with
    | some e =>
      simp only [final]
      refine ⟨⟨[_], rfl⟩, by simp, ?_, by simp⟩
      intro h; cases h
    | none =>
      cases (readBack D w).2.2.2 with
      | some e =>
        simp only [final]
        refine ⟨⟨[], rfl⟩, by simp, ?_, by simp⟩
        intro h; cases h
      | none =>
        simp only [final]
        exact ⟨⟨[], rfl⟩, by simp, fun _ => rfl, by simp⟩

/-- Witness of C9: the loopback fixture returns normally after its three
calls. -/
theorem main_call_sequence_witness :
    main loopback [] = Except.ok (final (main loopback [])) ∧
      (final (main loopback [])).calls =
        [Syscall.Open (str "/dev/chardev") 2 511, Syscall.Write 3 (str "test"),
         Syscall.Read 3 256] :=
  ⟨rfl, (main_call_sequence loopback []).2.2.1 rfl⟩

/-- C10: in a successful run whose read returns the count `n ≤ 256` and stores
exactly the `n` bytes `d`, the 256 bytes printed after `Incoming message: ` are
`d` followed by positions `n..255` of the pre-filled buffer, which is
"some data" followed by 247 zero bytes. -/
theorem main_incoming_frame {σ : Type} (D : Device σ) (w : σ) (d : List Byte) (n : Nat)
    (hn : n ≤ 256) (hd : d.length = n)
    (hopen : (opened D w).2.2 = none) (hwrite : (written D w).2.2 = none)
    (hread : (readBack D w).2 = (d, (n : Int), none)) :
    (final (main D w)).stdout[2]?
        = some (str "Incoming message: "
            ++ (d ++ (str "some data" ++ List.replicate 247 0).drop n) ++ str "\n") ∧
      (d ++ (str "some data" ++ List.replicate 247 0).drop n).length = 256 ∧
      prefilled (str "some data") = str "some data" ++ List.replicate 247 0 := by
  have h3 : (readBack D w).2.2.2 = none := by rw [hread]
  have hdata : (readBack D w).2.1 = d := by rw [hread]
  have hle : d.length ≤ (prefilled (str "some data")).length := by
    rw [prefilled_length, hd]; exact hn
  have hrec : received (str "some data") D w
      = d ++ (str "some data" ++ List.replicate 247 0).drop n := by
    rw [received, hdata, copy_of_length_le _ _ hle, prefilled_some_data, hd]
  refine ⟨?_, ?_, prefilled_some_data⟩
  · rw [main_eq, probe_eq, hopen, hwrite, h3]
    simp only [final]
    rw [hrec]
    rfl
  · rw [← hrec, received, copy_length, prefilled_length]
    rfl

/-- Witness of C10: an echo of "test" prints "test", then " data", then 247
zero bytes. -/
theorem main_incoming_frame_witness :
    (readBack loopback []).2 = (str "test", ((4 : Nat) : Int), none) ∧
      (final (main loopback [])).stdout[2]?
        = some (str "Incoming message: "
            ++ (str "test" ++ (str " data" ++ List.replicate 247 0)) ++ str "\n") :=
  ⟨rfl, (main_incoming_frame loopback [] (str "test") 4 (by decide) rfl rfl rfl rfl).1⟩

end CharDevice
